import Mathlib

/-!
Verification development for the CampusHire.ai scoring and matching core.

The definitions below are a shallow embedding of the Python sources:
definitions in the `SemanticRankerM` namespace embed
`semantic_ranker.py` (class `SemanticRanker`), and definitions in the
`Evaluator` namespace embed `backend/scoring/evaluator.py`
(class `InterviewEvaluator`).  Machine floats are modelled by exact
rationals (and by real numbers where a square root occurs); the external
sentence-embedding model is a black box, so the cosine similarity of the
two embedding vectors enters `calculate_match_score` as a parameter (with
a vector-level wrapper for claims quantifying over embedding vectors).
Python text primitives (`lower`, `split`, substring membership) are
implemented structurally over character lists; `lower` is modelled on the
ASCII range this repository feeds it.
-/

namespace CampusHire

/-- Python substring test `needle in hay` on character lists: true iff
`needle` occurs contiguously in `hay` (the empty needle always occurs). -/
def substrOccurs (needle : List Char) : List Char → Bool
  | [] => needle.isEmpty
  | c :: rest => needle.isPrefixOf (c :: rest) || substrOccurs needle rest

/-- Python's `needle in hay` for strings. -/
def pythonIn (needle hay : String) : Bool :=
  substrOccurs needle.toList hay.toList

/-- ASCII lowercasing of one character (Python `str.lower` restricted to
the ASCII inputs appearing in this repository). -/
def lowerChar (c : Char) : Char :=
  if 'A' ≤ c ∧ c ≤ 'Z' then Char.ofNat (c.toNat + 32) else c

/-- Python `s.lower()`. -/
def lowerStr (s : String) : String := ⟨s.toList.map lowerChar⟩

/-- Accumulator pass of Python `s.split()` with no argument: split on
whitespace runs, producing no empty words. -/
def wordsAux (acc : List Char) : List Char → List (List Char)
  | [] => if acc.isEmpty then [] else [acc.reverse]
  | c :: rest =>
    if c.isWhitespace then
      if acc.isEmpty then wordsAux [] rest else acc.reverse :: wordsAux [] rest
    else wordsAux (c :: acc) rest

/-- Python `s.split()`: the whitespace-separated words of `s`. -/
def words (s : String) : List (List Char) := wordsAux [] s.toList

/-- Python `len(s.split())`. -/
def wordCount (s : String) : ℕ := (words s).length

/-- Split a character list at every character satisfying `p`, keeping
empty segments.  A run of delimiters yields empty segments, which every
caller filters out, so this refines Python `re.split` on a
one-character-class-plus pattern at those call sites. -/
def splitOnPred (p : Char → Bool) : List Char → List (List Char)
  | [] => [[]]
  | c :: rest =>
    if p c then [] :: splitOnPred p rest
    else
      match splitOnPred p rest with
      | [] => [[c]]
      | h :: t => (c :: h) :: t

namespace SemanticRankerM

/-- Dot product of two real vectors (pairwise product, then sum). -/
def dotProduct (u v : List ℝ) : ℝ :=
  ((u.zip v).map (fun p => p.1 * p.2)).sum

/-- Cosine similarity of two vectors: dot product divided by the product
of the magnitudes (`sklearn.metrics.pairwise.cosine_similarity`). -/
noncomputable def cosine_similarity (u v : List ℝ) : ℝ :=
  dotProduct u v / (Real.sqrt (dotProduct u u) * Real.sqrt (dotProduct v v))

/-- The fields of `resume_data` read by `calculate_match_score`. -/
structure ResumeData where
  skills : List String
  organizations : List String
  raw_text : Option String

/-- The dictionary returned by `SemanticRanker.calculate_match_score`
(`semantic_ranker.py` lines 137-144). -/
structure MatchResult where
  overall_score : ℝ
  semantic_similarity : ℝ
  skill_match_percentage : ℚ
  matched_skills : List String
  total_skills : ℕ
  matched_skills_count : ℕ

/-- `matched_skills` (lines 128-130): the candidate skills whose
lowercasing occurs as a substring of the lowercased job description. -/
def matched_skills_of (resume_data : ResumeData) (job_description : String) : List String :=
  resume_data.skills.filter (fun skill => pythonIn (lowerStr skill) (lowerStr job_description))

/-- `skill_match` (line 132):
`(len(matched_skills) / len(skills)) * 100 if skills else 0`. -/
def skill_match_of (resume_data : ResumeData) (job_description : String) : ℚ :=
  if resume_data.skills = [] then 0
  else ((matched_skills_of resume_data job_description).length : ℚ)
    / (resume_data.skills.length : ℚ) * 100

/-- `SemanticRanker.calculate_match_score` (lines 125-144), with the
externally computed cosine similarity of the profile and job embeddings
passed in as `similarity`.  Line 135: `overall_score = (similarity * 70)
+ (skill_match * 30)`; line 138 clamps it into `[0,100]`; line 139
reports `semantic_similarity = similarity * 100` without clamping. -/
noncomputable def calculate_match_score (resume_data : ResumeData)
    (job_description : String) (similarity : ℝ) : MatchResult :=
  { overall_score := min 100 (max 0
      (similarity * 70 + ((skill_match_of resume_data job_description : ℚ) : ℝ) * 30))
    semantic_similarity := similarity * 100
    skill_match_percentage := skill_match_of resume_data job_description
    matched_skills := matched_skills_of resume_data job_description
    total_skills := resume_data.skills.length
    matched_skills_count := (matched_skills_of resume_data job_description).length }

/-- `calculate_match_score` applied to explicit embedding vectors: the
similarity is the cosine similarity of the two vectors (line 125). -/
noncomputable def calculate_match_score_vec (resume_data : ResumeData)
    (job_description : String) (u v : List ℝ) : MatchResult :=
  calculate_match_score resume_data job_description (cosine_similarity u v)

end SemanticRankerM

namespace Evaluator

/-- `technical_keywords["programming"]` (evaluator lines 26-29). -/
def programming_keywords : List String :=
  ["algorithm", "data structure", "object-oriented", "functional", "debugging",
   "testing", "unit test", "integration", "api", "database", "sql", "nosql"]

/-- `technical_keywords["web_development"]` (lines 30-33). -/
def web_development_keywords : List String :=
  ["frontend", "backend", "full-stack", "react", "vue", "angular", "node.js",
   "express", "django", "flask", "rest", "graphql", "microservices"]

/-- `technical_keywords["data_science"]` (lines 34-37). -/
def data_science_keywords : List String :=
  ["machine learning", "deep learning", "neural network", "pandas", "numpy",
   "tensorflow", "pytorch", "scikit-learn", "data analysis", "visualization"]

/-- `technical_keywords["devops"]` (lines 38-41). -/
def devops_keywords : List String :=
  ["docker", "kubernetes", "ci/cd", "jenkins", "git", "aws", "azure", "gcp",
   "terraform", "ansible", "monitoring", "deployment"]

/-- `self.technical_keywords` (lines 25-42), in insertion order. -/
def technical_keywords : List (String × List String) :=
  [("programming", programming_keywords), ("web_development", web_development_keywords),
   ("data_science", data_science_keywords), ("devops", devops_keywords)]

/-- `quality_indicators["examples"]` (lines 46-49); note the source
leaves the capital I in "when I worked on" even though it is matched
against a lowercased response. -/
def examples_indicators : List String :=
  ["for example", "for instance", "in my experience", "when I worked on",
   "at my previous job", "in this project", "specifically", "particularly"]

/-- `quality_indicators["metrics"]` (lines 50-53). -/
def metrics_indicators : List String :=
  ["increased by", "decreased by", "improved", "reduced", "% improvement",
   "performance gain", "faster", "more efficient", "cost saving"]

/-- `quality_indicators["leadership"]` (lines 54-57). -/
def leadership_indicators : List String :=
  ["led a team", "managed", "coordinated", "organized", "mentored",
   "trained", "guided", "supervised", "collaborated"]

/-- `quality_indicators["problem_solving"]` (lines 58-61). -/
def problem_solving_indicators : List String :=
  ["solved", "resolved", "fixed", "debugged", "optimized", "improved",
   "identified", "analyzed", "troubleshot", "implemented solution"]

/-- `self.quality_indicators` (lines 45-62), in insertion order. -/
def quality_indicators : List (String × List String) :=
  [("examples", examples_indicators), ("metrics", metrics_indicators),
   ("leadership", leadership_indicators), ("problem_solving", problem_solving_indicators)]

/-- Technical keyword hits across all domains combined (lines 242-249). -/
def technicalHitCount (response_lower : String) : ℕ :=
  (technical_keywords.map
    (fun d => (d.2.filter (fun kw => pythonIn kw response_lower)).length)).sum

/-- The `total_keywords` counter after the loop of lines 245-249: the
number of keywords across all domains. -/
def totalKeywordCount : ℕ := (technical_keywords.map (fun d => d.2.length)).sum

/-- Quality indicator hits across all four categories (lines 254-258). -/
def qualityHitCount (response_lower : String) : ℕ :=
  (quality_indicators.map
    (fun c => (c.2.filter (fun ind => pythonIn ind response_lower)).length)).sum

/-- The dict returned by `_calculate_rule_based_scores` (lines 269-274). -/
structure RuleBasedScores where
  overall_score : ℚ
  technical_score : ℚ
  quality_score : ℚ
  length_score : ℚ

/-- `InterviewEvaluator._calculate_rule_based_scores` (lines 236-274);
`category` is accepted and unused, as in the source. -/
def calculate_rule_based_scores (response : String) (category : String) : RuleBasedScores :=
  let response_lower := lowerStr response
  let technical_score : ℚ :=
    min 5 ((technicalHitCount response_lower : ℚ) / ((max totalKeywordCount 1 : ℕ) : ℚ) * 10)
  let quality_score : ℚ := min 5 (qualityHitCount response_lower : ℚ)
  let word_count := wordCount response
  let length_score : ℚ := min 5 (max 1 (((word_count : ℚ) - 20) / 40 * 4 + 1))
  { overall_score := (technical_score + quality_score + length_score) / 3
    technical_score := technical_score
    quality_score := quality_score
    length_score := length_score }

/-- The dict returned by `_analyze_response_quality` (lines 285-294);
the source key of `unique_word_fraction` is the unique-words-over-words
ratio field. -/
structure QualityMetrics where
  word_count : ℕ
  sentence_count : ℕ
  avg_sentence_length : ℚ
  unique_word_fraction : ℚ
  has_examples : Bool
  has_metrics : Bool
  shows_leadership : Bool
  shows_problem_solving : Bool

/-- The characters stripped from each word before building the
unique-word set (line 281). -/
def punctChars : List Char := ['.', ',', '!', '?', ';', ':']

/-- Python `w.strip('.,!?;:')`: drop those characters from both ends. -/
def stripPunct (cs : List Char) : List Char :=
  ((cs.dropWhile (fun c => punctChars.contains c)).reverse.dropWhile
    (fun c => punctChars.contains c)).reverse

/-- `InterviewEvaluator._analyze_response_quality` (lines 276-294). -/
def analyze_response_quality (response : String) : QualityMetrics :=
  let ws := words response
  let sentences := splitOnPred (fun c => c == '.' || c == '!' || c == '?') response.toList
  let sentenceCount := (sentences.filter (fun s => s.any (fun c => !c.isWhitespace))).length
  let uniqueWords := (ws.map (fun w => stripPunct (w.map lowerChar))).dedup
  let response_lower := lowerStr response
  { word_count := ws.length
    sentence_count := sentenceCount
    avg_sentence_length := (ws.length : ℚ) / ((max 1 sentenceCount : ℕ) : ℚ)
    unique_word_fraction := (uniqueWords.length : ℚ) / ((max 1 ws.length : ℕ) : ℚ)
    has_examples := examples_indicators.any (fun ind => pythonIn ind response_lower)
    has_metrics := metrics_indicators.any (fun ind => pythonIn ind response_lower)
    shows_leadership := leadership_indicators.any (fun ind => pythonIn ind response_lower)
    shows_problem_solving :=
      problem_solving_indicators.any (fun ind => pythonIn ind response_lower) }

/-- The dict returned by `_assess_technical_depth` (lines 315-320). -/
structure TechnicalDepth where
  score : ℚ
  domain_relevance : String
  keywords_found : List String
  domain_scores : List (String × ℕ)

/-- Python `max(items, key=lambda x: x[1])` over the domain-score pairs:
the first item of maximal count (later items replace the running best
only when strictly greater), `("general", 0)` on the empty list. -/
def maxBySecond : List (String × ℕ) → String × ℕ
  | [] => ("general", 0)
  | x :: xs => xs.foldl (fun best y => if best.2 < y.2 then y else best) x

/-- `InterviewEvaluator._assess_technical_depth` (lines 296-320). -/
def assess_technical_depth (response : String) (category : String) : TechnicalDepth :=
  let response_lower := lowerStr response
  let domain_scores := technical_keywords.map
    (fun d => (d.1, (d.2.filter (fun kw => pythonIn kw response_lower)).length))
  let keywords_found := ((technical_keywords.filter
      (fun d => 0 < (d.2.filter (fun kw => pythonIn kw response_lower)).length)).map
    (fun d => d.2.filter (fun kw => pythonIn kw response_lower))).flatten
  let best := maxBySecond domain_scores
  { score := min 5 (max 1 ((best.2 : ℚ) * (3/2)))
    domain_relevance := best.1
    keywords_found := keywords_found.take 10
    domain_scores := domain_scores }

/-- The fields of the external (Gemini) evaluation dict that the
evaluator reads; `none` models a missing key, so the all-`none` value
models the empty dict passed when the external call failed. -/
structure AIEvaluation where
  overall_score : Option ℚ
  technical_depth : Option ℚ
  communication_clarity : Option ℚ

/-- The empty external evaluation dict. -/
def emptyAIEvaluation : AIEvaluation := ⟨none, none, none⟩

/-- The dict returned by `_check_consistency` (lines 333-337). -/
structure ConsistencyCheck where
  consistency : ℚ
  confidence : String
  score_difference : ℚ

/-- `InterviewEvaluator._check_consistency` (lines 322-337).  The
rule-based dict always carries its overall score, so the source's
`rule_eval.get("overall_score", 5)` is that field; the local
`consistency = max(0, 1 - difference/10)` is inlined. -/
def check_consistency (ai_eval : AIEvaluation) (rule_eval : RuleBasedScores) : ConsistencyCheck :=
  { consistency := max 0 (1 - |ai_eval.overall_score.getD 5 - rule_eval.overall_score| / 10)
    confidence :=
      if max 0 (1 - |ai_eval.overall_score.getD 5 - rule_eval.overall_score| / 10) ≥ 8/10 then
        "high"
      else if max 0 (1 - |ai_eval.overall_score.getD 5 - rule_eval.overall_score| / 10) ≥ 6/10
        then "medium"
      else "low"
    score_difference := |ai_eval.overall_score.getD 5 - rule_eval.overall_score| }

/-- `InterviewEvaluator._calculate_weighted_score` (lines 339-348):
`min(10, max(1, ai_score * 0.7 + rule_score * 0.3))`. -/
def calculate_weighted_score (ai_eval : AIEvaluation) (rule_eval : RuleBasedScores) : ℚ :=
  min 10 (max 1 (ai_eval.overall_score.getD 5 * (7/10) + rule_eval.overall_score * (3/10)))

/-- The dict returned by `evaluate_response_comprehensively` (lines
83-119), minus the wall-clock `timestamp` field, which is outside this
embedding. -/
structure ComprehensiveEvaluation where
  ai_overall_score : ℚ
  ai_technical_depth : ℚ
  ai_communication : ℚ
  rule_based_score : ℚ
  technical_keyword_score : ℚ
  quality_indicator_score : ℚ
  response_length : ℕ
  sentence_complexity : ℚ
  vocabulary_richness : ℚ
  technical_domain_match : String
  technical_keywords_found : List String
  final_overall_score : ℚ
  final_technical_depth : ℚ
  final_communication : ℚ
  has_specific_examples : Bool
  mentions_metrics : Bool
  shows_leadership : Bool
  demonstrates_problem_solving : Bool
  consistency_score : ℚ
  evaluation_confidence : String
  category : String

/-- `InterviewEvaluator.evaluate_response_comprehensively` (lines
64-121). -/
def evaluate_response_comprehensively (question response category : String)
    (ai_evaluation : AIEvaluation) : ComprehensiveEvaluation :=
  let rule_based_scores := calculate_rule_based_scores response category
  let quality_metrics := analyze_response_quality response
  let technical_depth := assess_technical_depth response category
  let consistency_check := check_consistency ai_evaluation rule_based_scores
  { ai_overall_score := ai_evaluation.overall_score.getD 5
    ai_technical_depth := ai_evaluation.technical_depth.getD 3
    ai_communication := ai_evaluation.communication_clarity.getD 3
    rule_based_score := rule_based_scores.overall_score
    technical_keyword_score := rule_based_scores.technical_score
    quality_indicator_score := rule_based_scores.quality_score
    response_length := quality_metrics.word_count
    sentence_complexity := quality_metrics.avg_sentence_length
    vocabulary_richness := quality_metrics.unique_word_fraction
    technical_domain_match := technical_depth.domain_relevance
    technical_keywords_found := technical_depth.keywords_found
    final_overall_score := calculate_weighted_score ai_evaluation rule_based_scores
    final_technical_depth := max (ai_evaluation.technical_depth.getD 3) technical_depth.score
    final_communication := ai_evaluation.communication_clarity.getD 3
    has_specific_examples := quality_metrics.has_examples
    mentions_metrics := quality_metrics.has_metrics
    shows_leadership := quality_metrics.shows_leadership
    demonstrates_problem_solving := quality_metrics.shows_problem_solving
    consistency_score := consistency_check.consistency
    evaluation_confidence := consistency_check.confidence
    category := category }

/-- `InterviewEvaluator._safe_mean` (lines 350-352). -/
def safe_mean (values : List ℚ) : ℚ :=
  if values = [] then 0 else values.sum / (values.length : ℚ)

/-- `InterviewEvaluator._safe_median` (lines 354-360); Python `sorted`
is an ascending sort, modelled by insertion sort, and the source's
`n = len(sorted_values)` is written `values.length`, the same number. -/
def safe_median (values : List ℚ) : ℚ :=
  if values = [] then 0
  else if values.length % 2 = 1 then
    (List.insertionSort (· ≤ ·) values).getD (values.length / 2) 0
  else
    ((List.insertionSort (· ≤ ·) values).getD (values.length / 2 - 1) 0
      + (List.insertionSort (· ≤ ·) values).getD (values.length / 2) 0) / 2

/-- `InterviewEvaluator._safe_std` (lines 362-368): population standard
deviation, 0 for fewer than two samples. -/
noncomputable def safe_std (values : List ℚ) : ℝ :=
  if values.length < 2 then 0
  else Real.sqrt
    (((values.map (fun x => (x - safe_mean values) ^ 2)).sum / (values.length : ℚ) : ℚ) : ℝ)

/-- `InterviewEvaluator._categorize_performance` (lines 370-379). -/
def categorize_performance (score : ℚ) : String :=
  if score ≥ 8 then "excellent"
  else if score ≥ 6 then "good"
  else if score ≥ 4 then "average"
  else "below_average"

/-- `InterviewEvaluator._calculate_improvement_trend` (lines 381-397);
the locals `first_avg` and `second_avg` are inlined. -/
def calculate_improvement_trend (scores : List ℚ) : String :=
  if scores.length < 3 then "insufficient_data"
  else if safe_mean (scores.drop (scores.length / 2))
      > safe_mean (scores.take (scores.length / 2)) + 1/2 then "improving"
  else if safe_mean (scores.drop (scores.length / 2))
      < safe_mean (scores.take (scores.length / 2)) - 1/2 then "declining"
  else "stable"

/-- `InterviewEvaluator._calculate_consistency_rating` (lines 399-407):
`max(0, 1 - std/4.5)`, and 1 for fewer than two scores. -/
noncomputable def calculate_consistency_rating (scores : List ℚ) : ℝ :=
  if scores.length < 2 then 1
  else max 0 (1 - safe_std scores / ((9 : ℝ)/2))

/-- The per-response evaluation dict fields read during aggregation;
`none` models a missing key. -/
structure EvaluationData where
  overall_score : Option ℚ := none
  final_overall_score : Option ℚ := none
  technical_depth : Option ℚ := none
  final_technical_depth : Option ℚ := none
  communication_clarity : Option ℚ := none
  final_communication : Option ℚ := none
  has_specific_examples : Option Bool := none
  shows_leadership : Option Bool := none

/-- A response record as consumed by the aggregate scorer; a missing
`evaluation` dict is the all-`none` `EvaluationData`. -/
structure InterviewResponse where
  response_text : String := ""
  category : Option String := none
  evaluation : EvaluationData := {}

/-- `InterviewEvaluator._identify_red_flags` (lines 409-430): the three
thresholded flags, appended in source order (the count locals are
inlined). -/
def identify_red_flags (responses : List InterviewResponse) : List String :=
  (if ((responses.filter (fun r => wordCount r.response_text < 15)).length : ℚ)
      ≥ (responses.length : ℚ) * (4/10)
   then ["Multiple very brief responses - may indicate lack of depth"] else [])
  ++ (if ((responses.filter (fun r => r.evaluation.overall_score.getD 5 < 4)).length : ℚ)
      ≥ (responses.length : ℚ) * (5/10)
   then ["Consistently low performance across multiple areas"] else [])
  ++ (if ((responses.filter
        (fun r => !(r.evaluation.has_specific_examples.getD false))).length : ℚ)
      ≥ (responses.length : ℚ) * (7/10)
   then ["Lack of specific examples or concrete experience"] else [])

/-- `InterviewEvaluator._identify_standout_indicators` (lines 432-454):
the three thresholded indicators, appended in source order (the count
locals are inlined). -/
def identify_standout_indicators (responses : List InterviewResponse) : List String :=
  (if ((responses.filter (fun r => r.evaluation.overall_score.getD 5 ≥ 8)).length : ℚ)
      ≥ (responses.length : ℚ) * (4/10)
   then ["Multiple excellent responses demonstrating strong competency"] else [])
  ++ (if ((responses.filter (fun r => r.evaluation.technical_depth.getD 3 ≥ 4)).length : ℚ)
      ≥ (responses.length : ℚ) * (3/10)
   then ["Strong technical knowledge and depth"] else [])
  ++ (if (responses.filter (fun r => r.evaluation.shows_leadership.getD false)).length ≥ 2
   then ["Demonstrates leadership experience and skills"] else [])

/-- Python `min(xs)` guarded by `if xs else 0` as at the call sites. -/
def listMin : List ℚ → ℚ
  | [] => 0
  | x :: rest => rest.foldl min x

/-- Python `max(xs)` guarded by `if xs else 0` as at the call sites. -/
def listMax : List ℚ → ℚ
  | [] => 0
  | x :: rest => rest.foldl max x

/-- The `overall_statistics` sub-dict (lines 153-160). -/
structure OverallStatistics where
  mean : ℚ
  median : ℚ
  std_deviation : ℝ
  min_score : ℚ
  max_score : ℚ
  score_range : ℚ

/-- The `technical_statistics` / `communication_statistics` sub-dicts
(lines 162-170). -/
structure ConsistencyStatistics where
  mean : ℚ
  consistency : ℝ

/-- One entry of the `category_performance` sub-dict (lines 172-179). -/
structure CategoryPerformance where
  average_score : ℚ
  response_count : ℕ
  performance_level : String

/-- The dict returned by `calculate_interview_aggregate_scores`. -/
structure AggregateScores where
  overall_statistics : OverallStatistics
  technical_statistics : ConsistencyStatistics
  communication_statistics : ConsistencyStatistics
  category_performance : List (String × CategoryPerformance)
  improvement_trend : String
  performance_consistency : ℝ
  red_flags : List String
  standout_indicators : List String

/-- `InterviewEvaluator._empty_aggregate_scores` (lines 515-527). -/
def empty_aggregate_scores : AggregateScores :=
  { overall_statistics :=
      { mean := 0, median := 0, std_deviation := 0, min_score := 0, max_score := 0
        score_range := 0 }
    technical_statistics := { mean := 0, consistency := 0 }
    communication_statistics := { mean := 0, consistency := 0 }
    category_performance := []
    improvement_trend := "no_data"
    performance_consistency := 0
    red_flags := ["No interview responses to evaluate"]
    standout_indicators := [] }

/-- The `category_performance` accumulation of lines 145-149: group the
raw `overall_score` (default 5) by `category` (default "general"),
preserving first-appearance order of categories. -/
def groupByCategory (responses : List InterviewResponse) : List (String × List ℚ) :=
  responses.foldl
    (fun acc r =>
      let cat := r.category.getD "general"
      let score := r.evaluation.overall_score.getD 5
      if acc.any (fun p => p.1 == cat) then
        acc.map (fun p => if p.1 == cat then (p.1, p.2 ++ [score]) else p)
      else acc ++ [(cat, [score])])
    []

/-- The `overall_scores` collection of line 141:
`eval.get("final_overall_score", eval.get("overall_score", 5))`. -/
def collectOverallScores (all_responses : List InterviewResponse) : List ℚ :=
  all_responses.map
    (fun r => r.evaluation.final_overall_score.getD (r.evaluation.overall_score.getD 5))

/-- The `technical_scores` collection of line 142. -/
def collectTechnicalScores (all_responses : List InterviewResponse) : List ℚ :=
  all_responses.map
    (fun r => r.evaluation.final_technical_depth.getD (r.evaluation.technical_depth.getD 3))

/-- The `communication_scores` collection of line 143. -/
def collectCommunicationScores (all_responses : List InterviewResponse) : List ℚ :=
  all_responses.map
    (fun r => r.evaluation.final_communication.getD
      (r.evaluation.communication_clarity.getD 3))

/-- `InterviewEvaluator.calculate_interview_aggregate_scores` (lines
123-190). -/
noncomputable def calculate_interview_aggregate_scores
    (all_responses : List InterviewResponse) : AggregateScores :=
  match all_responses with
  | [] => empty_aggregate_scores
  | _ =>
    { overall_statistics :=
        { mean := safe_mean (collectOverallScores all_responses)
          median := safe_median (collectOverallScores all_responses)
          std_deviation := safe_std (collectOverallScores all_responses)
          min_score := listMin (collectOverallScores all_responses)
          max_score := listMax (collectOverallScores all_responses)
          score_range := listMax (collectOverallScores all_responses)
            - listMin (collectOverallScores all_responses) }
      technical_statistics :=
        { mean := safe_mean (collectTechnicalScores all_responses)
          consistency :=
            if collectTechnicalScores all_responses = [] then 0
            else 1 - safe_std (collectTechnicalScores all_responses) / 5 }
      communication_statistics :=
        { mean := safe_mean (collectCommunicationScores all_responses)
          consistency :=
            if collectCommunicationScores all_responses = [] then 0
            else 1 - safe_std (collectCommunicationScores all_responses) / 5 }
      category_performance := (groupByCategory all_responses).map
        (fun p =>
          (p.1,
            { average_score := safe_mean p.2
              response_count := p.2.length
              performance_level := categorize_performance (safe_mean p.2) }))
      improvement_trend := calculate_improvement_trend (collectOverallScores all_responses)
      performance_consistency :=
        calculate_consistency_rating (collectOverallScores all_responses)
      red_flags := identify_red_flags all_responses
      standout_indicators := identify_standout_indicators all_responses }

open Classical in
/-- `InterviewEvaluator._generate_hiring_recommendation` (lines
456-466). -/
noncomputable def generate_hiring_recommendation (mean_score : ℚ) (consistency : ℝ) : String :=
  if mean_score ≥ 15/2 ∧ consistency ≥ (7 : ℝ)/10 then
    "Strong Hire - Excellent candidate with consistent performance"
  else if mean_score ≥ 13/2 ∧ consistency ≥ (6 : ℝ)/10 then
    "Hire - Good candidate with solid performance"
  else if mean_score ≥ 11/2 then
    "Maybe - Average candidate, consider specific role requirements"
  else "Pass - Performance below expectations for this role"

end Evaluator

open SemanticRankerM Evaluator

/-- Concrete candidate record for scenario A: skills python and aws. -/
def sampleResume : ResumeData := ⟨["python", "aws"], [], none⟩

/-- Concrete job description containing "python" but not "aws". -/
def sampleJob : String := "We use python daily"

/-- A 12-word response. -/
def twelveWordResponse : String :=
  "one two three four five six seven eight nine ten eleven twelve"

/-- A 30-word response. -/
def thirtyWordResponse : String :=
  "alpha beta gamma delta epsilon zeta eta theta iota kappa lambda mu nu xi omicron pi rho sigma tau upsilon phi chi psi omega red green blue cyan magenta yellow"

/-- A 61-word response. -/
def sixtyOneWordResponse : String :=
  "w w w w w w w w w w w w w w w w w w w w w w w w w w w w w w w w w w w w w w w w w w w w w w w w w w w w w w w w w w w w w"

/-- Evaluation dict carrying only `final_overall_score = 2` (the raw
`overall_score` key is missing, so aggregation flags read default 5). -/
def evalFinalLow : EvaluationData := { final_overall_score := some 2 }

/-- Two responses whose final overall scores are 2 while their raw
overall scores are missing. -/
def rsFinalLow : List InterviewResponse :=
  [{ evaluation := evalFinalLow }, { evaluation := evalFinalLow }]

/-- Evaluation dict with raw `overall_score = 2` and final score 9. -/
def evalRawLow : EvaluationData := { overall_score := some 2, final_overall_score := some 9 }

/-- Two responses with low raw overall scores but high final scores. -/
def rsRawLow : List InterviewResponse :=
  [{ evaluation := evalRawLow }, { evaluation := evalRawLow }]

/-- Evaluation dict with raw `overall_score = 8` and final score 2. -/
def evalRawHigh : EvaluationData := { overall_score := some 8, final_overall_score := some 2 }

/-- Two responses with high raw overall scores but low final scores. -/
def rsRawHigh : List InterviewResponse :=
  [{ evaluation := evalRawHigh }, { evaluation := evalRawHigh }]

/-- On the sample data exactly the skill "python" matches. -/
theorem sample_matched_skills : matched_skills_of sampleResume sampleJob = ["python"] := by
  decide

/-- The sample skill-match percentage is 50. -/
theorem sample_skill_match : skill_match_of sampleResume sampleJob = 50 := by
  unfold skill_match_of
  rw [if_neg (by decide), sample_matched_skills]
  norm_num [sampleResume]

/-- C1: the source's overall score is `min(100, max(0, similarity*70 +
skill_match*30))` with `skill_match` already on a 0-100 scale, so at
cosine similarity 0 and skill match 50 the reported overall score is 100,
while the claimed invariant `clamp(0,100, 0.7*semantic_similarity +
0.3*skill_match_percentage)` evaluates to 15 on the same reported
fields: the code diverges from the claimed (and comment-documented)
weighted average. -/
theorem C1_code_divergence :
    (calculate_match_score sampleResume sampleJob 0).semantic_similarity = 0 ∧
    (calculate_match_score sampleResume sampleJob 0).skill_match_percentage = 50 ∧
    (calculate_match_score sampleResume sampleJob 0).overall_score = 100 ∧
    min (100 : ℝ) (max 0
      ((7/10) * (calculate_match_score sampleResume sampleJob 0).semantic_similarity
        + (3/10) * ((calculate_match_score sampleResume sampleJob 0).skill_match_percentage : ℚ)))
      = 15 ∧
    (calculate_match_score sampleResume sampleJob 0).overall_score ≠
      min (100 : ℝ) (max 0
        ((7/10) * (calculate_match_score sampleResume sampleJob 0).semantic_similarity
          + (3/10) * ((calculate_match_score sampleResume sampleJob 0).skill_match_percentage : ℚ))) := by
  have hsem : (calculate_match_score sampleResume sampleJob 0).semantic_similarity = 0 := by
    show (0 : ℝ) * 100 = 0
    norm_num
  have hsk : (calculate_match_score sampleResume sampleJob 0).skill_match_percentage = 50 :=
    sample_skill_match
  have hov : (calculate_match_score sampleResume sampleJob 0).overall_score = 100 := by
    show min 100 (max 0 ((0 : ℝ) * 70 + ((skill_match_of sampleResume sampleJob : ℚ) : ℝ) * 30))
      = 100
    rw [sample_skill_match]
    norm_num
  refine ⟨hsem, hsk, hov, ?_, ?_⟩
  · rw [hsem, hsk]
    norm_num
  · rw [hsem, hsk, hov]
    norm_num

/-- C4 counterexample: for the embedding vectors `[1,0]` and `[-1,0]`
the cosine similarity is `-1` and the reported semantic similarity is
`-100`, a negative number, so it is not clamped into `[0,100]`. -/
theorem C4_counterexample :
    (calculate_match_score_vec sampleResume sampleJob [1, 0] [-1, 0]).semantic_similarity
      = -100 ∧
    (calculate_match_score_vec sampleResume sampleJob [1, 0] [-1, 0]).semantic_similarity
      < 0 := by
  have hd1 : dotProduct [1, 0] [-1, 0] = -1 := by
    norm_num [dotProduct]
  have hd2 : dotProduct [(1 : ℝ), 0] [1, 0] = 1 := by
    norm_num [dotProduct]
  have hd3 : dotProduct [(-1 : ℝ), 0] [-1, 0] = 1 := by
    norm_num [dotProduct]
  have hc : cosine_similarity [1, 0] [-1, 0] = -1 := by
    unfold cosine_similarity
    rw [hd1, hd2, hd3, Real.sqrt_one]
    norm_num
  have hs : (calculate_match_score_vec sampleResume sampleJob [1, 0] [-1, 0]).semantic_similarity
      = cosine_similarity [1, 0] [-1, 0] * 100 := rfl
  rw [hs, hc]
  norm_num

/-- C4 (amended): the reported semantic similarity is exactly cosine
similarity times 100 with no clamping (so it is negative whenever the
cosine is), while the overall score is clamped into `[0,100]`. -/
theorem C4_semantic_similarity (resume_data : ResumeData) (job_description : String)
    (u v : List ℝ) :
    (calculate_match_score_vec resume_data job_description u v).semantic_similarity
      = cosine_similarity u v * 100 ∧
    0 ≤ (calculate_match_score_vec resume_data job_description u v).overall_score ∧
    (calculate_match_score_vec resume_data job_description u v).overall_score ≤ 100 := by
  refine ⟨rfl, ?_, ?_⟩
  · exact le_min (by norm_num) (le_max_left _ _)
  · exact min_le_left _ _

/-- C6: the skill-match percentage is the count of candidate skills
occurring case-insensitively as substrings of the job description,
divided by `max 1` of the skill count, times 100; an empty skill list
gives 0 with no division error; and scenario A (skills python and aws,
job description containing python but not aws) gives exactly 50. -/
theorem C6_skill_match_percentage :
    (∀ (r : ResumeData) (j : String) (s : ℝ),
      (calculate_match_score r j s).skill_match_percentage
        = ((r.skills.filter (fun sk => pythonIn (lowerStr sk) (lowerStr j))).length : ℚ)
          / ((max 1 r.skills.length : ℕ) : ℚ) * 100) ∧
    (∀ (j : String) (s : ℝ) (orgs : List String) (raw : Option String),
      (calculate_match_score ⟨[], orgs, raw⟩ j s).skill_match_percentage = 0) ∧
    (∀ s : ℝ, (calculate_match_score sampleResume sampleJob s).skill_match_percentage = 50) := by
  refine ⟨?_, ?_, ?_⟩
  · intro r j s
    show skill_match_of r j = _
    unfold skill_match_of matched_skills_of
    rcases hr : r.skills with _ | ⟨a, l⟩
    · norm_num
    · rw [if_neg (by simp)]
      have hmax : (1 ⊔ (a :: l).length) = (a :: l).length := by
        rw [sup_eq_right]
        simp
      rw [hmax]
  · intro j s orgs raw
    rfl
  · intro s
    exact sample_skill_match

/-- The rule-based overall score of the empty response is 1/3 (technical
and quality scores 0, length score 1). -/
theorem rb_empty_overall : (calculate_rule_based_scores "" "general").overall_score = 1/3 := by
  have ht : technicalHitCount (lowerStr "") = 0 := by decide
  have hq : qualityHitCount (lowerStr "") = 0 := by decide
  have hw : wordCount "" = 0 := by decide
  show (min 5 ((technicalHitCount (lowerStr "") : ℚ)
        / ((max totalKeywordCount 1 : ℕ) : ℚ) * 10)
      + min 5 (qualityHitCount (lowerStr "") : ℚ)
      + min 5 (max 1 (((wordCount "" : ℚ) - 20) / 40 * 4 + 1))) / 3 = 1/3
  rw [ht, hq, hw]
  norm_num

/-- C2 counterexample: with the external evaluation absent (empty dict),
the evaluator's ai overall score is the mid-scale default 5 and its
final overall score is 18/5, neither of which equals the rule-based
overall value 1/3, so the ai and final fields do not fall back to the
rule-based values. -/
theorem C2_counterexample :
    (evaluate_response_comprehensively "Q" "" "general" emptyAIEvaluation).ai_overall_score
      = 5 ∧
    (evaluate_response_comprehensively "Q" "" "general" emptyAIEvaluation).rule_based_score
      = 1/3 ∧
    (evaluate_response_comprehensively "Q" "" "general" emptyAIEvaluation).ai_overall_score
      ≠ (evaluate_response_comprehensively "Q" "" "general" emptyAIEvaluation).rule_based_score ∧
    (evaluate_response_comprehensively "Q" "" "general" emptyAIEvaluation).final_overall_score
      = 18/5 ∧
    (evaluate_response_comprehensively "Q" "" "general" emptyAIEvaluation).final_overall_score
      ≠ (evaluate_response_comprehensively "Q" "" "general" emptyAIEvaluation).rule_based_score := by
  have hai : (evaluate_response_comprehensively "Q" "" "general" emptyAIEvaluation).ai_overall_score
      = 5 := rfl
  have hrb : (evaluate_response_comprehensively "Q" "" "general" emptyAIEvaluation).rule_based_score
      = 1/3 := rb_empty_overall
  have hfin : (evaluate_response_comprehensively "Q" "" "general"
      emptyAIEvaluation).final_overall_score = 18/5 := by
    show calculate_weighted_score emptyAIEvaluation (calculate_rule_based_scores "" "general")
      = 18/5
    unfold calculate_weighted_score
    rw [show emptyAIEvaluation.overall_score.getD 5 = 5 from rfl, rb_empty_overall]
    norm_num
  exact ⟨hai, hrb, by rw [hai, hrb]; norm_num, hfin, by rw [hfin, hrb]; norm_num⟩

/-- C2 (amended): with the external evaluation absent, the evaluator
never fails, but the ai fields take the mid-scale defaults 5 and 3 (not
the rule-based values), the final overall score blends the default 5
with the rule-based overall as `clamp(1,10, 5*0.7 + 0.3*rule)`, the
final communication is the default 3, and the consistency score compares
the default 5 against the rule-based overall; no fallback-mode indicator
exists among the result fields. -/
theorem C2_degraded_defaults (question response category : String) :
    (evaluate_response_comprehensively question response category
      emptyAIEvaluation).ai_overall_score = 5 ∧
    (evaluate_response_comprehensively question response category
      emptyAIEvaluation).ai_technical_depth = 3 ∧
    (evaluate_response_comprehensively question response category
      emptyAIEvaluation).ai_communication = 3 ∧
    (evaluate_response_comprehensively question response category
      emptyAIEvaluation).final_communication = 3 ∧
    (evaluate_response_comprehensively question response category
      emptyAIEvaluation).final_overall_score
      = min 10 (max 1 (5 * (7/10)
          + (calculate_rule_based_scores response category).overall_score * (3/10))) ∧
    (evaluate_response_comprehensively question response category
      emptyAIEvaluation).consistency_score
      = max 0 (1 - |5 - (calculate_rule_based_scores response category).overall_score| / 10) :=
  ⟨rfl, rfl, rfl, rfl, rfl, rfl⟩

/-- The mean of the first half `[9,9]` of scenario B. -/
theorem mean_first_half : safe_mean [9, 9] = 9 := by
  unfold safe_mean
  rw [if_neg (by decide)]
  norm_num

/-- The mean of the second half `[8,9,8]` of scenario B. -/
theorem mean_second_half : safe_mean [8, 9, 8] = 25/3 := by
  unfold safe_mean
  rw [if_neg (by decide)]
  norm_num

/-- The improvement trend of scenario B's scores is "declining": the
second-half mean 25/3 is more than 0.5 below the first-half mean 9. -/
theorem trend_scenario_b : calculate_improvement_trend [9, 9, 8, 9, 8] = "declining" := by
  unfold calculate_improvement_trend
  rw [if_neg (by decide),
      show ([9, 9, 8, 9, 8] : List ℚ).take (([9, 9, 8, 9, 8] : List ℚ).length / 2) = [9, 9]
        from by decide,
      show ([9, 9, 8, 9, 8] : List ℚ).drop (([9, 9, 8, 9, 8] : List ℚ).length / 2) = [8, 9, 8]
        from by decide,
      mean_first_half, mean_second_half]
  rw [if_neg (by norm_num), if_pos (by norm_num)]

/-- C3 counterexample: for the scores `[9,9,8,9,8]` the halves are
`[9,9]` (mean 9) and `[8,9,8]` (mean 25/3), and 25/3 is more than 0.5
below 9, so the improvement trend is "declining", not "stable". -/
theorem C3_counterexample :
    calculate_improvement_trend [9, 9, 8, 9, 8] = "declining" ∧
    ("declining" : String) ≠ "stable" :=
  ⟨trend_scenario_b, by decide⟩

/-- C3 (amended): for the scores `[9,9,8,9,8]` the improvement trend is
"declining" (by the documented `scores[:n//2]` versus `scores[n//2:]`
split with the 0.5 threshold), the consistency rating is at least 0.8,
and the hiring recommendation is the Strong Hire string. -/
theorem C3_scenario_b :
    calculate_improvement_trend [9, 9, 8, 9, 8] = "declining" ∧
    (8/10 : ℝ) ≤ calculate_consistency_rating [9, 9, 8, 9, 8] ∧
    generate_hiring_recommendation (safe_mean [9, 9, 8, 9, 8])
      (calculate_consistency_rating [9, 9, 8, 9, 8])
      = "Strong Hire - Excellent candidate with consistent performance" := by
  have hmean : safe_mean [9, 9, 8, 9, 8] = 43/5 := by
    unfold safe_mean
    rw [if_neg (by decide)]
    norm_num
  have hvar : ((([9, 9, 8, 9, 8] : List ℚ).map
        (fun x => (x - safe_mean [9, 9, 8, 9, 8]) ^ 2)).sum
      / (([9, 9, 8, 9, 8] : List ℚ).length : ℚ)) = 6/25 := by
    simp only [hmean]
    norm_num
  have hstd : safe_std [9, 9, 8, 9, 8] = Real.sqrt ((6/25 : ℚ) : ℝ) := by
    unfold safe_std
    rw [if_neg (by decide), hvar]
  have hsq : Real.sqrt ((6/25 : ℚ) : ℝ) ≤ 9/10 := by
    rw [show ((6/25 : ℚ) : ℝ) = 6/25 by norm_num]
    exact Real.sqrt_le_iff.mpr ⟨by norm_num, by norm_num⟩
  have hcons : (8/10 : ℝ) ≤ calculate_consistency_rating [9, 9, 8, 9, 8] := by
    unfold calculate_consistency_rating
    rw [if_neg (by decide), hstd]
    have h2 : Real.sqrt ((6/25 : ℚ) : ℝ) / ((9 : ℝ)/2) ≤ (9/10 : ℝ) / ((9 : ℝ)/2) :=
      (div_le_div_iff_of_pos_right (by norm_num)).mpr hsq
    have h3 : (9/10 : ℝ) / ((9 : ℝ)/2) = 1/5 := by norm_num
    have h1 : (8/10 : ℝ) ≤ 1 - Real.sqrt ((6/25 : ℚ) : ℝ) / ((9 : ℝ)/2) := by
      rw [h3] at h2
      linarith
    exact h1.trans (le_max_right _ _)
  refine ⟨trend_scenario_b, hcons, ?_⟩
  rw [hmean]
  unfold generate_hiring_recommendation
  rw [if_pos ⟨by norm_num, by linarith [hcons]⟩]

/-- C5: with an external overall score of 9 against a rule-based
overall of 4, the consistency is 1/2, the confidence is "low", and the
weighted final score is 7.5; in general the confidence is "high" iff
consistency is at least 0.8 and "medium" iff it lies in `[0.6, 0.8)`. -/
theorem C5_consistency_confidence :
    (∀ (ai : AIEvaluation) (rb : RuleBasedScores),
      ai.overall_score = some 9 → rb.overall_score = 4 →
      (check_consistency ai rb).consistency = 1/2 ∧
      (check_consistency ai rb).confidence = "low" ∧
      calculate_weighted_score ai rb = 15/2) ∧
    (∀ (ai : AIEvaluation) (rb : RuleBasedScores),
      ((check_consistency ai rb).confidence = "high" ↔
        8/10 ≤ (check_consistency ai rb).consistency) ∧
      ((check_consistency ai rb).confidence = "medium" ↔
        6/10 ≤ (check_consistency ai rb).consistency ∧
          (check_consistency ai rb).consistency < 8/10)) := by
  constructor
  · intro ai rb h9 h4
    have hgetD : ai.overall_score.getD 5 = 9 := by rw [h9]; rfl
    have habs : |(9 : ℚ) - 4| = 5 := by
      rw [show (9 : ℚ) - 4 = 5 from by norm_num, abs_of_nonneg (by norm_num : (0 : ℚ) ≤ 5)]
    have hmax : max (0 : ℚ) (1 - 5 / 10) = 1/2 := by norm_num
    simp only [check_consistency, calculate_weighted_score, hgetD, h4, habs, hmax]
    refine ⟨trivial, ?_, by norm_num⟩
    rw [if_neg (by norm_num), if_neg (by norm_num)]
  · intro ai rb
    simp only [check_consistency]
    set c : ℚ := max 0 (1 - |ai.overall_score.getD 5 - rb.overall_score| / 10) with hc
    constructor
    · by_cases h8 : c ≥ 8/10
      · rw [if_pos h8]
        simp [h8]
      · rw [if_neg h8]
        constructor
        · intro hcontr
          by_cases h6 : c ≥ 6/10
          · rw [if_pos h6] at hcontr
            exact absurd hcontr (by decide)
          · rw [if_neg h6] at hcontr
            exact absurd hcontr (by decide)
        · intro hc8
          exact absurd hc8 h8
    · by_cases h8 : c ≥ 8/10
      · rw [if_pos h8]
        constructor
        · intro hcontr
          exact absurd hcontr (by decide)
        · rintro ⟨h6, hlt⟩
          exact absurd h8 (not_le.mpr hlt)
      · rw [if_neg h8]
        by_cases h6 : c ≥ 6/10
        · rw [if_pos h6]
          simp only [true_iff]
          exact ⟨h6, not_le.mp h8⟩
        · rw [if_neg h6]
          constructor
          · intro hcontr
            exact absurd hcontr (by decide)
          · rintro ⟨h6', _⟩
            exact absurd h6' h6

/-- Closed instance of C5 at the concrete inputs of scenario D. -/
theorem C5_witness :
    (check_consistency ⟨some 9, none, none⟩ ⟨4, 0, 0, 0⟩).consistency = 1/2 ∧
    (check_consistency ⟨some 9, none, none⟩ ⟨4, 0, 0, 0⟩).confidence = "low" ∧
    calculate_weighted_score ⟨some 9, none, none⟩ ⟨4, 0, 0, 0⟩ = 15/2 :=
  C5_consistency_confidence.1 ⟨some 9, none, none⟩ ⟨4, 0, 0, 0⟩ rfl rfl

/-- C7: aggregating the empty response list raises nothing and returns
the all-zero report whose red-flag list carries the
"No interview responses to evaluate" flag. -/
theorem C7_empty_input :
    calculate_interview_aggregate_scores [] = empty_aggregate_scores ∧
    (calculate_interview_aggregate_scores []).overall_statistics.mean = 0 ∧
    (calculate_interview_aggregate_scores []).overall_statistics.median = 0 ∧
    (calculate_interview_aggregate_scores []).overall_statistics.std_deviation = 0 ∧
    (calculate_interview_aggregate_scores []).overall_statistics.min_score = 0 ∧
    (calculate_interview_aggregate_scores []).overall_statistics.max_score = 0 ∧
    (calculate_interview_aggregate_scores []).overall_statistics.score_range = 0 ∧
    (calculate_interview_aggregate_scores []).technical_statistics.mean = 0 ∧
    (calculate_interview_aggregate_scores []).technical_statistics.consistency = 0 ∧
    (calculate_interview_aggregate_scores []).communication_statistics.mean = 0 ∧
    (calculate_interview_aggregate_scores []).communication_statistics.consistency = 0 ∧
    (calculate_interview_aggregate_scores []).performance_consistency = 0 ∧
    "No interview responses to evaluate"
      ∈ (calculate_interview_aggregate_scores []).red_flags := by
  refine ⟨rfl, rfl, rfl, rfl, rfl, rfl, rfl, rfl, rfl, rfl, rfl, rfl, ?_⟩
  show "No interview responses to evaluate" ∈ ["No interview responses to evaluate"]
  simp

/-- C8: the length score is `clamp(1,5, (word_count - 20)/40*4 + 1)`,
it is monotone in the word count on the claimed range 10..60, and any
response of 60 or more words receives the maximal score 5 (no further
credit). -/
theorem C8_length_score :
    (∀ (response category : String),
      (calculate_rule_based_scores response category).length_score
        = min 5 (max 1 (((wordCount response : ℚ) - 20) / 40 * 4 + 1))) ∧
    (∀ (category r1 r2 : String),
      10 ≤ wordCount r1 → wordCount r1 ≤ wordCount r2 → wordCount r2 ≤ 60 →
      (calculate_rule_based_scores r1 category).length_score
        ≤ (calculate_rule_based_scores r2 category).length_score) ∧
    (∀ (category response : String), 60 ≤ wordCount response →
      (calculate_rule_based_scores response category).length_score = 5) := by
  have hdef : ∀ (response category : String),
      (calculate_rule_based_scores response category).length_score
        = min 5 (max 1 (((wordCount response : ℚ) - 20) / 40 * 4 + 1)) := fun r c => rfl
  refine ⟨hdef, ?_, ?_⟩
  · intro c r1 r2 h10 h12 h60
    rw [hdef, hdef]
    have hcast : ((wordCount r1 : ℚ)) ≤ (wordCount r2 : ℚ) := by exact_mod_cast h12
    have hin : ((wordCount r1 : ℚ) - 20) / 40 * 4 + 1
        ≤ ((wordCount r2 : ℚ) - 20) / 40 * 4 + 1 := by linarith
    exact min_le_min le_rfl (max_le_max le_rfl hin)
  · intro c r h60
    rw [hdef]
    have hcast : (60 : ℚ) ≤ (wordCount r : ℚ) := by exact_mod_cast h60
    have h5 : (5 : ℚ) ≤ ((wordCount r : ℚ) - 20) / 40 * 4 + 1 := by linarith
    rw [max_eq_right ((by norm_num : (1 : ℚ) ≤ 5).trans h5), min_eq_left h5]

/-- Closed instance of C8 at concrete responses of 12, 30 and 61
words. -/
theorem C8_witness :
    (calculate_rule_based_scores twelveWordResponse "general").length_score
      ≤ (calculate_rule_based_scores thirtyWordResponse "general").length_score ∧
    (calculate_rule_based_scores sixtyOneWordResponse "general").length_score = 5 :=
  ⟨C8_length_score.2.1 "general" twelveWordResponse thirtyWordResponse
      (by decide) (by decide) (by decide),
    C8_length_score.2.2 "general" sixtyOneWordResponse (by decide)⟩

/-- C9: for a non-empty score list the aggregate median takes the middle
element of the ascending sort for odd length and the average of the two
middle elements for even length, and the standard deviation is the
population standard deviation `sqrt(mean((x-mean)^2))`, defined as 0 for
fewer than two samples. -/
theorem C9_median_std (values : List ℚ) (hne : values ≠ []) :
    (values.length % 2 = 1 →
      safe_median values
        = (List.insertionSort (· ≤ ·) values).getD (values.length / 2) 0) ∧
    (values.length % 2 = 0 →
      safe_median values
        = ((List.insertionSort (· ≤ ·) values).getD (values.length / 2 - 1) 0
            + (List.insertionSort (· ≤ ·) values).getD (values.length / 2) 0) / 2) ∧
    (2 ≤ values.length →
      safe_std values
        = Real.sqrt (((values.map
            (fun x => (x - values.sum / (values.length : ℚ)) ^ 2)).sum
              / (values.length : ℚ) : ℚ) : ℝ)) ∧
    (values.length < 2 → safe_std values = 0) := by
  have hmean : safe_mean values = values.sum / (values.length : ℚ) := by
    unfold safe_mean
    rw [if_neg hne]
  refine ⟨?_, ?_, ?_, ?_⟩
  · intro hodd
    unfold safe_median
    rw [if_neg hne, if_pos hodd]
  · intro heven
    unfold safe_median
    rw [if_neg hne, if_neg (by omega)]
  · intro h2
    unfold safe_std
    rw [if_neg (by omega)]
    simp only [hmean]
  · intro h2
    unfold safe_std
    rw [if_pos h2]

/-- Closed instance of C9 at an odd-length list and a singleton. -/
theorem C9_witness :
    safe_median [3, 1, 2] = (List.insertionSort (· ≤ ·) ([3, 1, 2] : List ℚ)).getD 1 0 ∧
    safe_std ([7] : List ℚ) = 0 :=
  ⟨(C9_median_std [3, 1, 2] (by decide)).1 (by decide),
    (C9_median_std [7] (by decide)).2.2.2 (by decide)⟩

/-- C10: the low-performance red flag and the excellence standout
indicator read each response's raw overall score (default 5), not the
final overall score that feeds the overall statistics: a list whose
final overall scores are all 2 (mean 2 < 4) raises no low-performance
flag, while lists with low (resp. high) raw overall scores trigger the
flag (resp. the excellence indicator) regardless of their final
scores. -/
theorem C10_flags_use_raw_scores :
    collectOverallScores rsFinalLow = [2, 2] ∧
    (calculate_interview_aggregate_scores rsFinalLow).overall_statistics.mean = 2 ∧
    ((2 : ℚ) < 4) ∧
    "Consistently low performance across multiple areas"
      ∉ (calculate_interview_aggregate_scores rsFinalLow).red_flags ∧
    "Consistently low performance across multiple areas"
      ∈ (calculate_interview_aggregate_scores rsRawLow).red_flags ∧
    "Multiple excellent responses demonstrating strong competency"
      ∈ (calculate_interview_aggregate_scores rsRawHigh).standout_indicators ∧
    (calculate_interview_aggregate_scores rsRawHigh).overall_statistics.mean = 2 := by
  have hmapA : collectOverallScores rsFinalLow = [2, 2] := by
    decide
  have hmeanA : (calculate_interview_aggregate_scores rsFinalLow).overall_statistics.mean
      = 2 := by
    show safe_mean (collectOverallScores rsFinalLow) = 2
    rw [hmapA]
    unfold safe_mean
    rw [if_neg (by decide)]
    norm_num
  have hrfA : identify_red_flags rsFinalLow
      = ["Multiple very brief responses - may indicate lack of depth",
         "Lack of specific examples or concrete experience"] := by
    unfold identify_red_flags
    rw [show (rsFinalLow.filter (fun r => wordCount r.response_text < 15)).length = 2
          from by decide,
        show (rsFinalLow.filter (fun r => r.evaluation.overall_score.getD 5 < 4)).length = 0
          from by decide,
        show (rsFinalLow.filter
            (fun r => !(r.evaluation.has_specific_examples.getD false))).length = 2
          from by decide,
        show rsFinalLow.length = 2 from rfl]
    norm_num
  have hrfB : identify_red_flags rsRawLow
      = ["Multiple very brief responses - may indicate lack of depth",
         "Consistently low performance across multiple areas",
         "Lack of specific examples or concrete experience"] := by
    unfold identify_red_flags
    rw [show (rsRawLow.filter (fun r => wordCount r.response_text < 15)).length = 2
          from by decide,
        show (rsRawLow.filter (fun r => r.evaluation.overall_score.getD 5 < 4)).length = 2
          from by decide,
        show (rsRawLow.filter
            (fun r => !(r.evaluation.has_specific_examples.getD false))).length = 2
          from by decide,
        show rsRawLow.length = 2 from rfl]
    norm_num
  have hsiC : identify_standout_indicators rsRawHigh
      = ["Multiple excellent responses demonstrating strong competency"] := by
    unfold identify_standout_indicators
    rw [show (rsRawHigh.filter (fun r => r.evaluation.overall_score.getD 5 ≥ 8)).length = 2
          from by decide,
        show (rsRawHigh.filter (fun r => r.evaluation.technical_depth.getD 3 ≥ 4)).length = 0
          from by decide,
        show (rsRawHigh.filter (fun r => r.evaluation.shows_leadership.getD false)).length = 0
          from by decide,
        show rsRawHigh.length = 2 from rfl]
    norm_num
  have hmeanC : (calculate_interview_aggregate_scores rsRawHigh).overall_statistics.mean
      = 2 := by
    show safe_mean (collectOverallScores rsRawHigh) = 2
    rw [show collectOverallScores rsRawHigh = [2, 2] from by decide]
    unfold safe_mean
    rw [if_neg (by decide)]
    norm_num
  refine ⟨hmapA, hmeanA, by norm_num, ?_, ?_, ?_, hmeanC⟩
  · show "Consistently low performance across multiple areas" ∉ identify_red_flags rsFinalLow
    rw [hrfA]
    decide
  · show "Consistently low performance across multiple areas" ∈ identify_red_flags rsRawLow
    rw [hrfB]
    decide
  · show "Multiple excellent responses demonstrating strong competency"
      ∈ identify_standout_indicators rsRawHigh
    rw [hsiC]
    decide

end CampusHire
